import Mathlib

/-!
Verification development for the generation-orchestration Telegram bot.

The definitions below are a shallow embedding of the repository source:

* `updateUserCredits` / `settle`  — `src/database/db_manager.py`,
  `DatabaseManager.update_user_credits` (lines 137-164) together with the
  debit decision of `src/bot/handlers.py` lines 1299-1304.
* `Json`, `extractImageUrl`       — the image-URL probing chain of
  `src/bot/handlers.py` lines 1342-1361.
* `extractRequestId`              — `src/bot/handlers.py` lines 1210-1219.
* `handleAspectRatio`             — the terminal part of
  `handle_aspect_ratio_callback`, `src/bot/handlers.py` lines 1090-1749.
* `handlePrompt`                  — `src/bot/handlers.py` lines 193-260.
* `uploadFile`                    — `SeedreamAPIClient.upload_file`,
  `src/api/client.py` lines 87-137, with `DatabaseManager.get_file_cache`
  (`src/database/db_manager.py` lines 631-661).
* `seedreamWaitLoop` / `nanobananaWaitLoop` — the polling loops of
  `src/api/client.py` lines 369-446 and 831-948.
* `seedreamGenerateTrace`         — `SeedreamAPIClient.generate`,
  `src/api/client.py` lines 238-254.
* `deleteFile`                    — `FileManager.delete_file`,
  `src/storage/file_manager.py` lines 591-611.
* `resolveAllUploadedList` / `photosReadyResolve` — the fresh-photo
  resolution of `src/bot/handlers.py` lines 1041-1087 and 1772-1810.

Credits are Python floats holding decimal amounts; they are modelled as
exact rationals (`ℚ`).  I/O side effects (chat sends, disk renames,
logging) are elided; database writes and file moves relevant to the
claims are recorded as explicit traces.
-/

/-- A minimal JSON value, the shape of payloads the API client returns. -/
inductive Json where
  | null : Json
  | bool : Bool → Json
  | str : String → Json
  | num : Int → Json
  | arr : List Json → Json
  | obj : List (String × Json) → Json

namespace Json

/-- Association-list field lookup, the embedding of Python dict
indexing and membership (`d[k]` and `k in d`). -/
def lookupField : List (String × Json) → String → Option Json
  | [], _ => none
  | (k, v) :: rest, key => if k = key then some v else lookupField rest key

/-- Field lookup `j.get k` on an object, `none` on any other value. -/
def get : Json → String → Option Json
  | .obj fields, key => lookupField fields key
  | _, _ => none

/-- Read a field as a string (`none` when absent or not a string). -/
def getStr (j : Json) (key : String) : Option String :=
  match j.get key with
  | some (.str s) => some s
  | _ => none

/-- Whether the value is a dict (`isinstance(x, dict)`). -/
def isObj : Json → Bool
  | .obj _ => true
  | _ => false

end Json

/-- Python `a or b` on two optional strings: the left value wins unless it
is falsy (`None` or the empty string). -/
def pyOrStr (a b : Option String) : Option String :=
  match a with
  | some s => if s = "" then b else some s
  | none => b

/-- Python truthiness of an optional string. -/
def strTruthy : Option String → Bool
  | some s => s ≠ ""
  | none => false

/-- The image-URL probing chain of the handlers over a completed payload
(`src/bot/handlers.py` lines 1342-1361): `images[0].url`,
`result.images[0].url`, `result.url`, `url`, then `jobs[*].results[0].url`
(each `*.url` probe also accepts `image_url`). -/
def jobsUrlLoop : List Json → Option String → Option String
  | [], acc => acc
  | job :: rest, acc =>
    match job with
    | .obj _ =>
      match job.get "results" with
      | some (.arr (item :: _)) =>
        match item with
        | .obj _ =>
          let acc2 := pyOrStr (item.getStr "url") (item.getStr "image_url")
          if strTruthy acc2 then acc2 else jobsUrlLoop rest acc2
        | _ => jobsUrlLoop rest acc
      | _ => jobsUrlLoop rest acc
    | _ => jobsUrlLoop rest acc

def extractImageUrl (result : Json) : Option String :=
  match result with
  | .obj _ =>
    match result.get "images" with
    | some (.arr (img :: _)) => pyOrStr (img.getStr "url") (img.getStr "image_url")
    | _ =>
      match result.get "result" with
      | some inner@(.obj _) =>
        (match inner.get "images" with
         | some (.arr (img :: _)) => pyOrStr (img.getStr "url") (img.getStr "image_url")
         | _ =>
           match inner.get "url" with
           | some (.str s) => some s
           | some _ => none
           | none => none)
      | _ =>
        match result.get "url" with
        | some (.str s) => some s
        | some _ => none
        | none =>
          match result.get "jobs" with
          | some (.arr jobs@(_ :: _)) => jobsUrlLoop jobs none
          | _ => none
  | _ => none

/-- Job-id extraction from the submission response
(`src/bot/handlers.py` lines 1210-1219): `request_id`, then `id`, then
`jobs[0].id`. -/
def extractRequestId (r : Json) : Option String :=
  match r with
  | .obj _ =>
    match r.get "request_id" with
    | some (.str s) => some s
    | some _ => none
    | none =>
      match r.get "id" with
      | some (.str s) => some s
      | some _ => none
      | none =>
        match r.get "jobs" with
        | some (.arr (job :: _)) =>
          (match job with
           | .obj _ =>
             (match job.get "id" with
              | some (.str s) => some s
              | _ => none)
           | _ => none)
        | _ => none
  | _ => none

/-! ## Ledger: credit updates and settlement -/

/-- Embedding of `DatabaseManager.update_user_credits` (`src/database/db_manager.py`
lines 137-164): add the delta, then clamp the balance at zero. -/
def updateUserCredits (balance delta : ℚ) : ℚ :=
  let b := balance + delta
  if b < 0 then 0 else b

/-- The settlement decision of `handle_aspect_ratio_callback`
(`src/bot/handlers.py` lines 1299-1304): debit the cost only when the
generation succeeded, otherwise leave the balance untouched. -/
def settle (balance cost : ℚ) (succeeded : Bool) : ℚ :=
  if succeeded then updateUserCredits balance (-cost) else balance

/-- A sequence of settle calls, folded over the balance. -/
def settleSeq (balance : ℚ) (ops : List (ℚ × Bool)) : ℚ :=
  ops.foldl (fun b op => settle b op.1 op.2) balance

/-! ## Session state (`context.user_data`) -/

/-- State strings of `user_data`, `src/bot/handlers.py` lines 101-107. -/
def STATE_IDLE : String := "idle"
def STATE_WAITING_PHOTO : String := "waiting_photo"
def STATE_WAITING_ASPECT : String := "waiting_aspect"

/-- The per-user conversational session, the keys of
`context.user_data` that the generation flow reads and writes.  An
`Option` field is `none` when the key is absent from the dict.
`mediaGroupPhotos` is the grouped-transmission buffer, an
insertion-ordered map from media-group id to the paths of the batch. -/
structure Session where
  state : String
  prompt : Option String
  userId : Option Nat
  creditCost : Option ℚ
  imagePaths : Option (List String)
  mediaGroupPhotos : Option (List (String × List String))
  aspect : Option String
  photoSource : Option String
  promptMessageId : Option Nat
  selectedMode : Option String
  newPhotosUploaded : Bool
  deriving DecidableEq, Repr

/-- One appended row of `action_history`
(`DatabaseManager.add_action`, `src/database/db_manager.py` 178-221),
restricted to the fields the claims mention. -/
structure ActionRec where
  userId : Nat
  actionType : String
  creditsSpent : ℚ
  deriving DecidableEq, Repr

/-- Python `s.replace(pat, repl)` on character lists, fuelled by the
input length so it evaluates inside the kernel.  (For an empty pattern
it returns the input unchanged; the only pattern used here is
`"aspect_"`.) -/
def listReplace (pat repl : List Char) : Nat → List Char → List Char
  | _, [] => []
  | 0, s => s
  | fuel + 1, c :: rest =>
    if pat.isPrefixOf (c :: rest) ∧ pat ≠ [] then
      repl ++ listReplace pat repl fuel (List.drop (pat.length - 1) rest)
    else c :: listReplace pat repl fuel rest

def pyReplace (s pat repl : String) : String :=
  String.mk (listReplace pat.data repl.data s.data.length s.data)

/-- Valid aspect values, `src/bot/handlers.py` line 1113 (the same six
values the inline keyboard of `src/bot/keyboards.py` lines 67-85 offers). -/
def validRatios : List String := ["16:9", "1:1", "9:16", "4:3", "3:4", "21:9"]

/-- Outcome of `api_client.generate(...)` as seen by the handler: either
a parsed JSON response or a raised exception. -/
inductive SubmitOutcome where
  | ok : Json → SubmitOutcome
  | raises : SubmitOutcome

/-- Outcome of `api_client.wait_for_completion(...)` as seen by the
`except` clauses of the handler (`src/bot/handlers.py` lines 1242-1297):
`TimeoutError`, `ValueError` prefixed `nsfw:`/`canceled:`,
`RuntimeError`, or any other exception. -/
inductive WaitOutcome where
  | completed : Json → WaitOutcome
  | timedOut : WaitOutcome
  | nsfwBlocked : WaitOutcome
  | canceledJob : WaitOutcome
  | backendFailed : WaitOutcome
  | otherError : WaitOutcome

/-- What `handle_aspect_ratio_callback` did: the session left behind, the
`add_action` rows appended, the `update_user_credits` deltas issued, and
whether `generate` was actually called. -/
structure HandlerResult where
  session : Session
  actions : List ActionRec
  debits : List ℚ
  submitted : Bool
  deriving DecidableEq, Repr

/-- Python truthiness of an optional user id (`user_id = 0`/`None` are
falsy in `if not all([prompt, user_id])`). -/
def natTruthy : Option Nat → Bool
  | some n => n ≠ 0
  | none => false

/-- First group with the longest batch, Python
`max(keys, key=lambda k: len(d[k]))` over dict insertion order
(`src/bot/handlers.py` line 1125): a later group replaces the current
maximum only when strictly longer. -/
def maxByLen (g0 : String × List String) (rest : List (String × List String)) :
    String × List String :=
  rest.foldl (fun acc g => if g.2.length > acc.2.length then g else acc) g0

/-- Lines 1121-1131 of `src/bot/handlers.py`: when unprocessed media groups
remain at aspect selection, adopt the largest group as `image_paths` and
drop the buffer (only when that group is non-empty). -/
def mediaPickAtAspect (s : Session) : Session :=
  match s.mediaGroupPhotos with
  | some (g0 :: rest) =>
    let g := maxByLen g0 rest
    if g.2 ≠ [] then
      { s with imagePaths := some g.2, mediaGroupPhotos := none }
    else s
  | _ => s

/-- Whether the handler polls: `if request_id:`
(`src/bot/handlers.py` line 1225). -/
def pollWaited (initial : Json) : Bool :=
  strTruthy (extractRequestId initial)

/-- Whether the attempt ends as `generation_failed = True`
(`src/bot/handlers.py` lines 1222-1297): submission raised, or polling
happened and ended in any exception. -/
def outcomeFailed (submit : SubmitOutcome) (wait : WaitOutcome) : Bool :=
  match submit with
  | .raises => true
  | .ok initial =>
    pollWaited initial &&
      (match wait with
       | .completed _ => false
       | _ => true)

/-- The `result` variable at the point of URL extraction
(`src/bot/handlers.py` lines 1221-1297): the initial submission response,
replaced by the completed status payload when a job id was present and
polling ended in `completed`. -/
def finalPayload (initial : Json) (wait : WaitOutcome) : Json :=
  if pollWaited initial then
    match wait with
    | .completed p => p
    | _ => initial
  else initial

/-- The terminal block of `handle_aspect_ratio_callback`
(`src/bot/handlers.py` lines 1191-1749): the `try` around `generate` /
`wait_for_completion`, the settlement, the `add_action`, the outer
`except` and the `finally`.  Entered once validation passed, with `s2`
the session as of line 1191.  `downloadOk` is whether the image download
(lines 1367-1414) succeeds when attempted.  Chat sends, message edits
and on-disk file moves are elided; session mutations, `add_action` rows
and `update_user_credits` deltas are modelled in program order.

A subtlety the embedding must keep: `model_name` is a function local
assigned only at line 1419, after a successful download.  On the two
paths that reference it without it ever being assigned — the no-URL else
branch (line 1599) and the download-failure handler (line 1569) — the
interpreter raises `UnboundLocalError`, which propagates to the outer
`except` at line 1632; that handler then appends a SECOND, error-typed,
zero-credit `add_action` row after the success row and the debit. -/
def generationTerminal (cost : ℚ) (uid : Nat) (route : String) (s2 : Session)
    (submit : SubmitOutcome) (wait : WaitOutcome) (downloadOk : Bool) :
    HandlerResult :=
  match submit with
  | .raises =>
    -- outer except (lines 1632-1653): one error action, zero credits;
    -- then finally (lines 1690-1749): files moved on disk, the media
    -- buffer key deleted if present, state reset to idle.  The
    -- single-photo list key is left in the session.
    ⟨{ s2 with mediaGroupPhotos := none, state := STATE_IDLE },
     [⟨uid, "api_request_error_" ++ route, 0⟩], [], true⟩
  | .ok initial =>
    let failed := outcomeFailed submit wait
    let debits : List ℚ := if failed then [] else [-cost]
    let spent : ℚ := if failed then 0 else cost
    let atype :=
      if failed then "api_request_error_" ++ route
      else "api_request_" ++ route
    let act : ActionRec := ⟨uid, atype, spent⟩
    if failed then
      -- lines 1329-1340: pop image_paths, media_group_photos and the
      -- prompt, reset state, return (the finally block then finds the
      -- buffers already gone).
      ⟨{ s2 with imagePaths := none, mediaGroupPhotos := none,
                 prompt := none, state := STATE_IDLE },
       [act], debits, true⟩
    else
      -- success path (lines 1342-1631): debit (1301) and success row
      -- (1326) already issued; URL extraction runs on `result`.
      if strTruthy (extractImageUrl (finalPayload initial wait)) && downloadOk then
        -- download succeeded, `model_name` assigned at 1419: exactly the
        -- success row stands (later message failures are caught locally).
        -- The finally block deletes the media buffer key when present and
        -- resets the state, but never pops `image_paths`.
        ⟨{ s2 with mediaGroupPhotos := none, state := STATE_IDLE },
         [act], debits, true⟩
      else
        -- no recognized URL (line 1599) or download failure (line 1569):
        -- `model_name` was never assigned, the f-string raises
        -- `UnboundLocalError`, and the outer except at 1632-1653 appends
        -- a second, error-typed, zero-credit row.
        ⟨{ s2 with mediaGroupPhotos := none, state := STATE_IDLE },
         [act, ⟨uid, "api_request_error_" ++ route, 0⟩], debits, true⟩

/-- Shallow embedding of `handle_aspect_ratio_callback`
(`src/bot/handlers.py` lines 1090-1749).  Parameters:
`defaultCost` is `GENERATION_CREDIT_COST` (the fallback of
`user_data.get` of the credit cost, line 1174 — `config/constants.py` is
not shipped under `src/`, so the constant is a parameter), `userFound`
whether the DB lookup returned a user, `submit`/`wait`/`downloadOk` the
outcomes of the external calls. -/
def handleAspectRatio (defaultCost : ℚ) (s : Session) (callbackData : String)
    (userFound : Bool) (submit : SubmitOutcome) (wait : WaitOutcome)
    (downloadOk : Bool) : HandlerResult :=
  let ratioVal := pyReplace callbackData "aspect_" ""
  if ¬userFound then ⟨s, [], [], false⟩
  else if ratioVal ∉ validRatios then ⟨s, [], [], false⟩
  else
    -- line 1119: save the aspect; lines 1121-1131: media-group pickup
    let s1 := mediaPickAtAspect { s with aspect := some ratioVal }
    -- line 1134: image_paths defaults to the empty list; the list
    -- only feeds the request payload and messages, which are elided
    let _imagePaths := s1.imagePaths.getD []
    -- lines 1150-1161: pop the prompt message id
    let s2 := { s1 with promptMessageId := none }
    -- lines 1170-1174
    let route := s2.selectedMode.getD "nanobanana"
    let cost := s2.creditCost.getD defaultCost
    -- line 1177: if not all([prompt, user_id])
    if ¬(strTruthy s2.prompt ∧ natTruthy s2.userId) then
      ⟨{ s2 with state := STATE_IDLE }, [], [], false⟩
    else
      generationTerminal cost (s2.userId.getD 0) route s2 submit wait downloadOk

/-! ## Prompt intake (`handle_prompt`) -/

/-- Python `str.strip()`: drop whitespace from both ends (spelled out
over the character list so that it evaluates inside the kernel). -/
def pyStrip (s : String) : String :=
  String.mk (((s.data.dropWhile Char.isWhitespace).reverse.dropWhile
    Char.isWhitespace).reverse)

/-- The reply `handle_prompt` sends before returning. -/
inductive PromptResponse where
  | emptyPrompt : PromptResponse
  | insufficientCredits : PromptResponse
  | choosePhotoSource : PromptResponse
  | uploadPhotos : PromptResponse
  deriving DecidableEq, Repr

/-- Shallow embedding of `handle_prompt` (`src/bot/handlers.py` lines
193-260).  `cost` is `GENERATION_CREDIT_COST` (`config/constants.py` is
not shipped under `src/`, so it is a parameter), `credits` the stored
balance, `uid` the DB user id, `msgId` the prompt message id,
`userMode` the mode stored on the user row (already defaulted to
seedream), `hasLastUploads`/`hasNonEmptySets` the photo-source probes.
Returns the new session, the `add_action` rows appended (always none
on these paths) and the reply sent. -/
def handlePrompt (cost : ℚ) (s : Session) (text : String) (credits : ℚ)
    (uid : Nat) (msgId : Nat) (userMode : String)
    (hasLastUploads hasNonEmptySets : Bool) :
    Session × List ActionRec × PromptResponse :=
  let prompt := pyStrip text
  if prompt = "" then (s, [], .emptyPrompt)
  else if credits < cost then (s, [], .insufficientCredits)
  else
    let s1 := { s with
      prompt := some prompt,
      promptMessageId := some msgId,
      state := STATE_WAITING_PHOTO,
      userId := some uid,
      creditCost := some cost,
      selectedMode := some (s.selectedMode.getD userMode),
      imagePaths := some [],
      mediaGroupPhotos := some [] }
    if hasLastUploads || hasNonEmptySets then (s1, [], .choosePhotoSource)
    else (s1, [], .uploadPhotos)

/-! ## Upload cache (`upload_file` + `get_file_cache`) -/

/-- Embedding of `DatabaseManager.get_file_cache` (`src/database/db_manager.py` lines
631-661): return the cached URL only while `expires_at > now`.  The
cache entry for the hash is `(url, expiresAt)`; `now` is the query
time.  (The `last_used_at` touch is elided.) -/
def getFileCache (entry : Option (String × ℚ)) (now : ℚ) : Option String :=
  match entry with
  | some (url, expiresAt) => if now < expiresAt then some url else none
  | none => none

/-- Which branch of `upload_file` produced the returned URL. -/
inductive UploadReturn where
  | cached : String → UploadReturn
  | uploaded : String → UploadReturn
  | fallbackMissing : UploadReturn
  | fallbackNoClient : UploadReturn
  | fallbackError : UploadReturn
  deriving DecidableEq, Repr

/-- The environment `upload_file` runs in: whether the path exists on
disk, the cache row for the content hash of the file, the clock, whether the
official client is importable, and what `higgsfield_client.upload_file`
would return (`none` = it raises). -/
structure UploadEnv where
  fileExists : Bool
  cacheEntry : Option (String × ℚ)
  now : ℚ
  clientAvailable : Bool
  uploadResult : Option String

/-- Trace of one `upload_file` call: the branch taken, how many external
upload calls were made, and the `save_file_cache` writes issued. -/
structure UploadTrace where
  ret : UploadReturn
  uploadCalls : Nat
  cacheWrites : List String
  deriving DecidableEq, Repr

/-- Embedding of `SeedreamAPIClient.upload_file` (`src/api/client.py` lines 87-137;
`NanoBananaAPIClient.upload_file`, lines 493-543, is identical): missing
file → local fallback; cache hit → cached URL with no upload; client
unavailable → local fallback, not cached; upload success → cache the
genuine URL; upload raises → local fallback, not cached. -/
def uploadFile (env : UploadEnv) : UploadTrace :=
  if ¬env.fileExists then ⟨.fallbackMissing, 0, []⟩
  else
    match getFileCache env.cacheEntry env.now with
    | some url => ⟨.cached url, 0, []⟩
    | none =>
      if ¬env.clientAvailable then ⟨.fallbackNoClient, 0, []⟩
      else
        match env.uploadResult with
        | some url => ⟨.uploaded url, 1, [url]⟩
        | none => ⟨.fallbackError, 1, []⟩

/-! ## Polling loops (`wait_for_completion`) -/

/-- One poll attempt: `get_request_status` either returns a parsed
payload or raises (transport/parse error). -/
inductive PollFetch where
  | ok : Json → PollFetch
  | errRaise : PollFetch

/-- Result of running a polling loop for a bounded number of
iterations.  `stillPolling` carries the elapsed time when the fuel runs
out with the loop still going (the real loop is `while True`). -/
inductive PollResult where
  | done : Json → PollResult
  | nsfwBlocked : PollResult
  | backendFailed : PollResult
  | canceledJob : PollResult
  | pollTimeout : PollResult
  | stillPolling : Nat → PollResult

/-- Status extraction of `SeedreamAPIClient.wait_for_completion`
(`src/api/client.py` lines 395-399): top-level `status`, falling back to
`jobs[0].status` when it is empty. -/
def seedreamStatusOf (p : Json) : String :=
  let st := ((p.getStr "status").getD "").toLower
  if st = "" then
    match p.get "jobs" with
    | some (.arr (job :: _)) =>
      (match job with
       | .obj _ => ((job.getStr "status").getD "").toLower
       | _ => st)
    | _ => st
  else st

/-- Status extraction of `NanoBananaAPIClient.wait_for_completion`
(`src/api/client.py` lines 862-870): top-level `status`, overridden by a
non-empty `jobs[0].status`. -/
def nanobananaStatusOf (p : Json) : String :=
  let st := ((p.getStr "status").getD "").toLower
  match p.get "jobs" with
  | some (.arr (job :: _)) =>
    let jst := ((job.getStr "status").getD "").toLower
    if jst ≠ "" then jst else st
  | _ => st

/-- Embedding of `SeedreamAPIClient.wait_for_completion` (`src/api/client.py` lines
369-446), one constructor per loop iteration.  `fetch i` is the outcome
of the i-th `get_request_status` call; `elapsed` is the time accumulated
by the `poll_interval` sleeps (each poll request itself is instantaneous
in the model).  A terminal status raises before the timeout check (lines
403-429); a non-terminal status checks `elapsed >= max_wait` (line 433)
and sleeps; a raised fetch error is caught at line 443 and retries with
NO timeout check. -/
def seedreamWaitLoop (fetch : Nat → PollFetch) (maxWait interval : Nat) :
    Nat → Nat → Nat → PollResult
  | 0, _, elapsed => .stillPolling elapsed
  | fuel + 1, i, elapsed =>
    match fetch i with
    | .errRaise => seedreamWaitLoop fetch maxWait interval fuel (i + 1) (elapsed + interval)
    | .ok p =>
      let st := seedreamStatusOf p
      if st = "completed" then .done p
      else if st = "nsfw" then .nsfwBlocked
      else if st = "failed" then .backendFailed
      else if st = "canceled" ∨ st = "cancelled" then .canceledJob
      else if maxWait ≤ elapsed then .pollTimeout
      else seedreamWaitLoop fetch maxWait interval fuel (i + 1) (elapsed + interval)

/-- Embedding of `NanoBananaAPIClient.wait_for_completion` (`src/api/client.py` lines
831-948).  Same shape, except: an error-status payload raises a
generic `Exception` (line 924) that the catch-all at line 938 treats as
retryable, and the catch-all DOES check the timeout (lines 943-945)
before sleeping and retrying. -/
def nanobananaWaitLoop (fetch : Nat → PollFetch) (maxWait interval : Nat) :
    Nat → Nat → Nat → PollResult
  | 0, _, elapsed => .stillPolling elapsed
  | fuel + 1, i, elapsed =>
    match fetch i with
    | .errRaise =>
      if maxWait ≤ elapsed then .pollTimeout
      else nanobananaWaitLoop fetch maxWait interval fuel (i + 1) (elapsed + interval)
    | .ok p =>
      let st := nanobananaStatusOf p
      if st = "completed" then .done p
      else if st = "nsfw" then .nsfwBlocked
      else if st = "failed" then .backendFailed
      else if st = "canceled" ∨ st = "cancelled" then .canceledJob
      else if st = "error" then
        -- raised as a generic Exception, caught by the line-938 handler
        (if maxWait ≤ elapsed then .pollTimeout
         else nanobananaWaitLoop fetch maxWait interval fuel (i + 1) (elapsed + interval))
      else if maxWait ≤ elapsed then .pollTimeout
      else nanobananaWaitLoop fetch maxWait interval fuel (i + 1) (elapsed + interval)

/-! ## Seedream generate: the 14-image limit -/

/-- Selection of `images_to_upload` (`src/api/client.py` lines 240-244):
`image_paths` wins when truthy, else a truthy `image_path` becomes a
one-element list. -/
def imagesToUpload (imagePath : Option String) (imagePaths : Option (List String)) :
    List String :=
  match imagePaths with
  | some (p :: ps) => p :: ps
  | _ =>
    match imagePath with
    | some p => if p = "" then [] else [p]
    | none => []

/-- Trace of `SeedreamAPIClient.generate` (`src/api/client.py` lines
238-254) up to the POST: the uploads performed, whether the backend
request was reached, and whether the 14-image `ValueError` was raised.
The length check (line 247) runs before the upload loop (line 252). -/
structure SeedreamGenTrace where
  uploads : List String
  posted : Bool
  limitRejected : Bool
  deriving DecidableEq, Repr

def seedreamGenerateTrace (imagePath : Option String)
    (imagePaths : Option (List String)) : SeedreamGenTrace :=
  let imgs := imagesToUpload imagePath imagePaths
  if imgs.length > 14 then ⟨[], false, true⟩
  else ⟨imgs, true, false⟩

/-! ## File Lifecycle Store: `delete_file` -/

/-- The on-disk zones of one user
(`src/storage/file_manager.py`): filenames in the user root (incoming),
`last_uploads` (recent), `used` (archival) and `results`. -/
structure UserFiles where
  root : List String
  lastUploads : List String
  used : List String
  results : List String
  deriving DecidableEq, Repr

/-- Embedding of `FileManager.delete_file` (`src/storage/file_manager.py` lines
591-611): `get_file_path` (lines 560-576) looks the name up in the user
ROOT directory only, and a found file is `unlink`ed — removed outright,
not relocated anywhere. -/
def deleteFile (st : UserFiles) (filename : String) : UserFiles × Bool :=
  if filename ∈ st.root then
    ({ st with root := st.root.erase filename }, true)
  else (st, false)

/-- Every filename in any zone of the store. -/
def UserFiles.allFiles (st : UserFiles) : List String :=
  st.root ++ st.lastUploads ++ st.used ++ st.results

/-! ## Fresh-photo resolution -/

/-- Python string comparison: lexicographic by code point, spelled out
over the character lists so it evaluates inside the kernel. -/
def charListLt : List Char → List Char → Bool
  | [], [] => false
  | [], _ :: _ => true
  | _ :: _, [] => false
  | c :: cs, d :: ds =>
    if c.toNat < d.toNat then true
    else if d.toNat < c.toNat then false
    else charListLt cs ds

def strLt (a b : String) : Bool := charListLt a.data b.data

/-- Embedding of `sorted(all_media_groups.keys())`, carried out on the (key, batch)
pairs: insertion sort by key under the string order, preserving each
internal arrival order of each batch. -/
def insertByKey (g : String × List String) :
    List (String × List String) → List (String × List String)
  | [] => [g]
  | h :: t => if strLt g.1 h.1 then g :: h :: t else h :: insertByKey g t

def sortGroups : List (String × List String) → List (String × List String)
  | [] => []
  | g :: t => insertByKey g (sortGroups t)

/-- The accumulation loop shared by both resolution sites: walk the
sorted groups, extending the collected list with each batch. -/
def collectGroups (acc : List String) :
    List (String × List String) → List String
  | [] => acc
  | g :: rest => collectGroups (acc ++ g.2) rest

/-- The `photos_all_uploaded` branch of `handle_photo_upload_control_callback`
(`src/bot/handlers.py` lines 1772-1810): previously-accumulated single
images first, then every buffered media group in sorted-key order, the
buffer deleted once after the loop. -/
def resolveAllUploadedList (singles : List String)
    (groups : List (String × List String)) : List String :=
  match groups with
  | [] => singles
  | _ :: _ => collectGroups singles (sortGroups groups)

/-- The same collection in `handle_photos_ready_callback`
(`src/bot/handlers.py` lines 1041-1060): identical, except
the `del` of the media-group buffer key sits INSIDE the loop, so
the second iteration deletes an already-deleted key and raises
`KeyError`.  `bufPresent` tracks whether the dict key still exists. -/
def photosReadyLoop (acc : List String) (bufPresent : Bool) :
    List (String × List String) → Except String (List String)
  | [] => .ok acc
  | g :: rest =>
    let acc2 := acc ++ g.2
    if bufPresent then photosReadyLoop acc2 false rest
    else .error "KeyError"

def photosReadyResolve (singles : List String)
    (groups : List (String × List String)) : Except String (List String) :=
  match groups with
  | [] => .ok singles
  | _ :: _ => photosReadyLoop singles true (sortGroups groups)

/-- Resolution order as the spec states it (§4.2 *Fresh*): batches flattened
in the order they were FIRST SEEN (dict insertion order), not in sorted
key order.  Kept separate so the two can be compared. -/
def specFreshResolution (singles : List String)
    (groups : List (String × List String)) : List String :=
  singles ++ groups.flatMap (fun g => g.2)

/-! ## Theorems -/

/-- Settlement keeps a non-negative balance non-negative. -/
theorem settle_nonneg (b c : ℚ) (succ : Bool) (hb : 0 ≤ b) :
    0 ≤ settle b c succ := by
  unfold settle updateUserCredits
  cases succ with
  | false => simpa using hb
  | true =>
    simp only [if_true]
    split
    · exact le_refl 0
    · linarith

/-- C3: a failed settlement never changes the balance; a successful one
debits exactly `min cost balance`; and any sequence of settlements keeps
the balance non-negative (`DatabaseManager.update_user_credits` clamps at
zero, `src/database/db_manager.py` lines 150-157, and the handler only
debits on success, `src/bot/handlers.py` lines 1299-1304). -/
theorem c3_settle_exact_and_nonneg :
    (∀ b c : ℚ, settle b c false = b) ∧
    (∀ b c : ℚ, 0 ≤ b → settle b c true = b - min c b) ∧
    (∀ (b : ℚ) (ops : List (ℚ × Bool)), 0 ≤ b → 0 ≤ settleSeq b ops) := by
  refine ⟨fun b c => rfl, fun b c hb => ?_, fun b ops hb => ?_⟩
  · unfold settle updateUserCredits
    rcases le_total c b with h | h
    · rw [min_eq_left h]
      have : ¬(b + -c < 0) := by linarith
      simp only [if_true, this, if_false]
      ring
    · rw [min_eq_right h]
      simp only [if_true]
      split
      · linarith
      · linarith
  · induction ops generalizing b with
    | nil => exact hb
    | cons op rest ih =>
      exact ih (settle b op.1 op.2) (settle_nonneg b op.1 op.2 hb)

/-- Witness for C3 at the scenario numbers of the spec (balance 40, cost 50). -/
theorem c3_settle_exact_and_nonneg_witness :
    settle 40 50 true = 40 - min 50 40 ∧
    0 ≤ settleSeq 40 [(50, true), (30, false)] :=
  ⟨c3_settle_exact_and_nonneg.2.1 40 50 (by norm_num),
   c3_settle_exact_and_nonneg.2.2 40 [(50, true), (30, false)] (by norm_num)⟩

/-- C7: with a non-empty prompt and a balance below the configured cost,
`handle_prompt` replies with the insufficient-credits message and returns
before mutating any session key or writing any action row
(`src/bot/handlers.py` lines 213-217 precede every `user_data` write). -/
theorem c7_insufficient_credits_no_state_change
    (cost : ℚ) (s : Session) (text : String) (credits : ℚ)
    (uid msgId : Nat) (userMode : String) (hasLast hasSets : Bool)
    (hne : pyStrip text ≠ "") (hlt : credits < cost) :
    handlePrompt cost s text credits uid msgId userMode hasLast hasSets =
      (s, [], PromptResponse.insufficientCredits) := by
  unfold handlePrompt
  rw [if_neg hne, if_pos hlt]

/-- Witness for C7: the spec scenario, 40 credits against a cost of 50. -/
theorem c7_insufficient_credits_no_state_change_witness :
    handlePrompt 50
      ⟨STATE_IDLE, none, none, none, none, none, none, none, none, none, false⟩
      "a red cat" 40 7 11 "seedream" false false =
      (⟨STATE_IDLE, none, none, none, none, none, none, none, none, none, false⟩,
       [], PromptResponse.insufficientCredits) :=
  c7_insufficient_credits_no_state_change 50 _ "a red cat" 40 7 11 "seedream"
    false false (by decide) (by norm_num)

/-- Lemma: `mediaPickAtAspect` only touches `imagePaths` and
`mediaGroupPhotos`. -/
theorem mediaPickAtAspect_prompt (s : Session) :
    (mediaPickAtAspect s).prompt = s.prompt := by
  unfold mediaPickAtAspect
  rcases h : s.mediaGroupPhotos with _ | ⟨_ | ⟨g0, rest⟩⟩ <;> simp only
  split <;> rfl

theorem mediaPickAtAspect_userId (s : Session) :
    (mediaPickAtAspect s).userId = s.userId := by
  unfold mediaPickAtAspect
  rcases h : s.mediaGroupPhotos with _ | ⟨_ | ⟨g0, rest⟩⟩ <;> simp only
  split <;> rfl

/-- The terminal block always reports that a submission happened. -/
theorem generationTerminal_submitted (cost : ℚ) (uid : Nat) (route : String)
    (s2 : Session) (submit : SubmitOutcome) (wait : WaitOutcome)
    (downloadOk : Bool) :
    (generationTerminal cost uid route s2 submit wait downloadOk).submitted = true := by
  unfold generationTerminal
  cases submit with
  | raises => rfl
  | ok p =>
    simp only
    split
    · rfl
    · split <;> rfl

/-- C1 (amended): after any terminal outcome of the generation block —
success, timeout, cancel, content-block, backend failure, any other
polling exception, or an exception thrown while submitting — the session
state is `idle` and the grouped-transmission buffer is gone; at least one
action row is appended.  On every failure outcome the appended row is
exactly one error-typed row with zero credits and no debit is issued, and
on the polling-failure outcomes the single-photo list is popped.  On
success the cost is debited once and a success-typed row carrying the
cost is appended; that row is the only one when the completed payload
yields a recognized URL and the download succeeds, but when no URL shape
matches or the download fails, the handler crashes on the unassigned
local `model_name` (`src/bot/handlers.py` lines 1599 and 1569) and the
outer except appends a SECOND, error-typed, zero-credit row.  (On
success and on a submission exception the single-photo list stays in the
session — see the counterexample.) -/
theorem c1_generating_terminal_amended (cost : ℚ) (uid : Nat) (route : String)
    (s2 : Session) (submit : SubmitOutcome) (wait : WaitOutcome)
    (downloadOk : Bool) :
    (generationTerminal cost uid route s2 submit wait downloadOk).session.state = STATE_IDLE ∧
    (generationTerminal cost uid route s2 submit wait downloadOk).session.mediaGroupPhotos = none ∧
    (generationTerminal cost uid route s2 submit wait downloadOk).actions ≠ [] ∧
    (outcomeFailed submit wait = true →
      (generationTerminal cost uid route s2 submit wait downloadOk).actions =
        [⟨uid, "api_request_error_" ++ route, 0⟩] ∧
      (generationTerminal cost uid route s2 submit wait downloadOk).debits = []) ∧
    (∀ p, submit = SubmitOutcome.ok p → outcomeFailed submit wait = true →
      (generationTerminal cost uid route s2 submit wait downloadOk).session.imagePaths = none) ∧
    (∀ p, submit = SubmitOutcome.ok p → outcomeFailed submit wait = false →
      (generationTerminal cost uid route s2 submit wait downloadOk).debits = [-cost] ∧
      ((strTruthy (extractImageUrl (finalPayload p wait)) && downloadOk) = true →
        (generationTerminal cost uid route s2 submit wait downloadOk).actions =
          [⟨uid, "api_request_" ++ route, cost⟩]) ∧
      ((strTruthy (extractImageUrl (finalPayload p wait)) && downloadOk) = false →
        (generationTerminal cost uid route s2 submit wait downloadOk).actions =
          [⟨uid, "api_request_" ++ route, cost⟩,
           ⟨uid, "api_request_error_" ++ route, 0⟩])) := by
  refine ⟨?_, ?_, ?_, ?_, ?_, ?_⟩
  · cases submit with
    | raises => rfl
    | ok p =>
      cases hfd : outcomeFailed (SubmitOutcome.ok p) wait with
      | true => simp [generationTerminal, hfd]
      | false =>
        cases hurl : (strTruthy (extractImageUrl (finalPayload p wait)) && downloadOk) with
        | true => simp [generationTerminal, hfd, hurl]
        | false => simp [generationTerminal, hfd, hurl]
  · cases submit with
    | raises => rfl
    | ok p =>
      cases hfd : outcomeFailed (SubmitOutcome.ok p) wait with
      | true => simp [generationTerminal, hfd]
      | false =>
        cases hurl : (strTruthy (extractImageUrl (finalPayload p wait)) && downloadOk) with
        | true => simp [generationTerminal, hfd, hurl]
        | false => simp [generationTerminal, hfd, hurl]
  · cases submit with
    | raises => simp [generationTerminal]
    | ok p =>
      cases hfd : outcomeFailed (SubmitOutcome.ok p) wait with
      | true => simp [generationTerminal, hfd]
      | false =>
        cases hurl : (strTruthy (extractImageUrl (finalPayload p wait)) && downloadOk) with
        | true => simp [generationTerminal, hfd, hurl]
        | false => simp [generationTerminal, hfd, hurl]
  · intro hfd
    cases submit with
    | raises => exact ⟨rfl, rfl⟩
    | ok p => exact ⟨by simp [generationTerminal, hfd], by simp [generationTerminal, hfd]⟩
  · intro p hp hfd
    cases hp
    simp [generationTerminal, hfd]
  · intro p hp hfd
    cases hp
    refine ⟨?_, ?_, ?_⟩
    · simp [generationTerminal, hfd]
      split <;> rfl
    · intro hurl
      simp [generationTerminal, hfd, hurl]
    · intro hurl
      simp [generationTerminal, hfd, hurl]

/-- A session as it stands at line 1191 of `handle_aspect_ratio_callback`
(mid-generation), used by the C1 witness and counterexample. -/
def sampleGenSession : Session :=
  ⟨STATE_WAITING_ASPECT, some "a red cat", some 1, some 50, some ["a.jpg"],
   none, some "1:1", some "new", none, some "seedream", false⟩

/-- A submission response carrying a job id, so that polling happens. -/
def sampleInitJson : Json := .obj [("request_id", .str "rid-1")]

/-- A completed payload carrying a top-level `url`. -/
def sampleUrlPayload : Json :=
  .obj [("status", .str "completed"), ("url", .str "https://x/y.png")]

/-- Witness for C1 at a concrete timeout outcome and at a concrete
clean-success outcome. -/
theorem c1_generating_terminal_amended_witness :
    (generationTerminal 50 1 "seedream" sampleGenSession
        (SubmitOutcome.ok sampleInitJson) WaitOutcome.timedOut true).actions =
      [⟨1, "api_request_error_seedream", 0⟩] ∧
    (generationTerminal 50 1 "seedream" sampleGenSession
        (SubmitOutcome.ok sampleInitJson) WaitOutcome.timedOut
        true).session.imagePaths = none ∧
    (generationTerminal 50 1 "seedream" sampleGenSession
        (SubmitOutcome.ok sampleInitJson)
        (WaitOutcome.completed sampleUrlPayload) true).actions =
      [⟨1, "api_request_seedream", 50⟩] := by
  have h1 := c1_generating_terminal_amended 50 1 "seedream" sampleGenSession
    (SubmitOutcome.ok sampleInitJson) WaitOutcome.timedOut true
  have h2 := c1_generating_terminal_amended 50 1 "seedream" sampleGenSession
    (SubmitOutcome.ok sampleInitJson) (WaitOutcome.completed sampleUrlPayload) true
  exact ⟨(h1.2.2.2.1 (by decide)).1,
         h1.2.2.2.2.1 sampleInitJson rfl (by decide),
         (h2.2.2.2.2.2 sampleInitJson rfl (by decide)).2.1 (by decide)⟩

/-- Counterexample to C1 as stated: on a SUCCESSFUL terminal outcome the
session returns to `idle` but the buffered single-photo list is NOT
cleared — the `finally` block of `handle_aspect_ratio_callback`
(`src/bot/handlers.py` lines 1690-1749) moves the files on disk yet never
pops the `image_paths` key; only the failure branch (line 1333)
does.  So "the buffered photo collections … are cleared" fails for the
success outcome. -/
theorem c1_counterexample_success_retains_photo_list :
    (generationTerminal 50 1 "seedream" sampleGenSession
        (SubmitOutcome.ok sampleInitJson)
        (WaitOutcome.completed sampleUrlPayload) true).session.state = STATE_IDLE ∧
    (generationTerminal 50 1 "seedream" sampleGenSession
        (SubmitOutcome.ok sampleInitJson)
        (WaitOutcome.completed sampleUrlPayload) true).session.imagePaths =
      some ["a.jpg"] := by
  constructor <;> rfl

/-- C8: a callback whose ratio (after stripping the `aspect_` tag) is
outside the six enumerated values is refused with no session change, no
action row and no submission (`src/bot/handlers.py` lines 1112-1116
return before line 1119 stores anything); any ratio in the set, on a
session that holds a prompt and a user id, reaches the submission call. -/
theorem c8_aspect_validation :
    (∀ (defaultCost : ℚ) (s : Session) (data : String)
       (submit : SubmitOutcome) (wait : WaitOutcome) (downloadOk : Bool),
       pyReplace data "aspect_" "" ∉ validRatios →
       handleAspectRatio defaultCost s data true submit wait downloadOk =
         ⟨s, [], [], false⟩) ∧
    (∀ (defaultCost : ℚ) (s : Session) (data : String)
       (submit : SubmitOutcome) (wait : WaitOutcome) (downloadOk : Bool),
       pyReplace data "aspect_" "" ∈ validRatios →
       strTruthy s.prompt = true → natTruthy s.userId = true →
       (handleAspectRatio defaultCost s data true submit wait downloadOk).submitted = true) := by
  constructor
  · intro defaultCost s data submit wait downloadOk h
    simp [handleAspectRatio, h]
  · intro defaultCost s data submit wait downloadOk h hp hu
    simp [handleAspectRatio, h, mediaPickAtAspect_prompt, mediaPickAtAspect_userId,
      hp, hu, generationTerminal_submitted]

/-- Witness for C8: the value `"5:5"` from the spec is refused on a mid-flow session
and `"1:1"` is accepted on the same session. -/
theorem c8_aspect_validation_witness :
    handleAspectRatio 50 sampleGenSession "aspect_5:5" true
        (SubmitOutcome.ok sampleInitJson) WaitOutcome.timedOut true =
      ⟨sampleGenSession, [], [], false⟩ ∧
    (handleAspectRatio 50 sampleGenSession "aspect_1:1" true
        (SubmitOutcome.ok sampleInitJson) WaitOutcome.timedOut true).submitted = true :=
  ⟨c8_aspect_validation.1 50 sampleGenSession "aspect_5:5"
     (SubmitOutcome.ok sampleInitJson) WaitOutcome.timedOut true (by decide),
   c8_aspect_validation.2 50 sampleGenSession "aspect_1:1"
     (SubmitOutcome.ok sampleInitJson) WaitOutcome.timedOut true (by decide)
     (by decide) (by decide)⟩
/-- C9: when the file exists and its content hash has a non-expired cache
row, `upload_file` makes zero external upload calls and returns the
cached URL (`src/api/client.py` lines 105-112); and every local-fallback
return — missing file, unavailable client, or a raised upload — writes
nothing into the cache (lines 100-103, 115-119, 132-137; the only
`save_file_cache` call, line 128, follows a successful genuine upload). -/
theorem c9_upload_cache_hit_and_fallback_never_cached :
    (∀ (env : UploadEnv) (url : String),
       env.fileExists = true →
       getFileCache env.cacheEntry env.now = some url →
       (uploadFile env).uploadCalls = 0 ∧
       (uploadFile env).ret = UploadReturn.cached url) ∧
    (∀ env : UploadEnv,
       ((uploadFile env).ret = UploadReturn.fallbackMissing ∨
        (uploadFile env).ret = UploadReturn.fallbackNoClient ∨
        (uploadFile env).ret = UploadReturn.fallbackError) →
       (uploadFile env).cacheWrites = []) := by
  constructor
  · intro env url hex hcache
    simp [uploadFile, hex, hcache]
  · intro env hfb
    unfold uploadFile at hfb ⊢
    rcases hex : env.fileExists with _ | _ <;> simp [hex] at hfb ⊢
    rcases hcache : getFileCache env.cacheEntry env.now with _ | u <;>
      simp [hcache] at hfb ⊢
    rcases hcl : env.clientAvailable with _ | _ <;> simp [hcl] at hfb ⊢
    rcases hup : env.uploadResult with _ | u2 <;> simp [hup] at hfb ⊢

/-- Witness for C9: a cache hit at a concrete environment. -/
theorem c9_upload_cache_hit_and_fallback_never_cached_witness :
    (uploadFile ⟨true, some ("https://cdn/img", 10), 3, true, some "fresh"⟩).uploadCalls = 0 ∧
    (uploadFile ⟨true, some ("https://cdn/img", 10), 3, true,
       some "fresh"⟩).ret = UploadReturn.cached "https://cdn/img" :=
  c9_upload_cache_hit_and_fallback_never_cached.1
    ⟨true, some ("https://cdn/img", 10), 3, true, some "fresh"⟩
    "https://cdn/img" rfl (by norm_num [getFileCache])

/-- C10: `SeedreamAPIClient.generate` with more than 14 selected images
raises the `ValueError` of `src/api/client.py` line 248 before the
upload loop (line 252) and before the POST (line 289); with at most 14
it performs the uploads and reaches the POST without that rejection. -/
theorem c10_seedream_image_limit :
    (∀ (imagePath : Option String) (imagePaths : Option (List String)),
       (imagesToUpload imagePath imagePaths).length > 14 →
       seedreamGenerateTrace imagePath imagePaths = ⟨[], false, true⟩) ∧
    (∀ (imagePath : Option String) (imagePaths : Option (List String)),
       (imagesToUpload imagePath imagePaths).length ≤ 14 →
       (seedreamGenerateTrace imagePath imagePaths).limitRejected = false) := by
  constructor
  · intro ip ips h
    simp [seedreamGenerateTrace, h]
  · intro ip ips h
    simp [seedreamGenerateTrace, Nat.not_lt.mpr h]

/-- Witness for C10: fifteen paths are rejected with no uploads, fourteen
pass the check. -/
theorem c10_seedream_image_limit_witness :
    seedreamGenerateTrace none
        (some ["1", "2", "3", "4", "5", "6", "7", "8", "9", "10", "11",
               "12", "13", "14", "15"]) = ⟨[], false, true⟩ ∧
    (seedreamGenerateTrace none
        (some ["1", "2", "3", "4", "5", "6", "7", "8", "9", "10", "11",
               "12", "13", "14"])).limitRejected = false :=
  ⟨c10_seedream_image_limit.1 none
     (some ["1", "2", "3", "4", "5", "6", "7", "8", "9", "10", "11",
            "12", "13", "14", "15"]) (by decide),
   c10_seedream_image_limit.2 none
     (some ["1", "2", "3", "4", "5", "6", "7", "8", "9", "10", "11",
            "12", "13", "14"]) (by decide)⟩

/-- C2 (code bug): `FileManager.delete_file` permanently unlinks —
evaluated at a concrete store, the file found in the user root is gone
from every zone afterwards and the archival `used` zone does not receive
it, contradicting the stated invariant of the component (and its own module
docstring, `src/storage/file_manager.py` line 15: files are never
deleted, only moved to `used/`).  `cleanup_old_files` (lines 676-707)
likewise unlinks. -/
theorem c2_delete_file_unlinks_permanently :
    deleteFile ⟨["a.jpg"], ["b.jpg"], [], []⟩ "a.jpg" =
      (⟨[], ["b.jpg"], [], []⟩, true) ∧
    "a.jpg" ∈ (UserFiles.mk ["a.jpg"] ["b.jpg"] [] []).allFiles ∧
    "a.jpg" ∉ ((deleteFile ⟨["a.jpg"], ["b.jpg"], [], []⟩ "a.jpg").1).allFiles ∧
    ((deleteFile ⟨["a.jpg"], ["b.jpg"], [], []⟩ "a.jpg").1).used = [] := by
  refine ⟨by decide, by decide, by decide, by decide⟩

/-- A fetch stream on which every `get_request_status` call raises. -/
def allErrFetch : Nat → PollFetch := fun _ => PollFetch.errRaise

/-- C4 (code bug): when every poll attempt raises, the Seedream
`wait_for_completion` never reaches its timeout check — the catch-all at
`src/api/client.py` lines 443-446 sleeps and retries without consulting
`max_wait_time`, so for EVERY amount of fuel the loop is still polling
and in particular never returns `PollTimeout`.  The NanoBanana twin
(lines 938-947) does check the timeout in its catch-all and times out
after two all-error iterations with `max_wait 10`, `interval 5`. -/
theorem c4_seedream_all_error_polling_never_times_out :
    (∀ maxWait interval fuel i elapsed : Nat,
       seedreamWaitLoop allErrFetch maxWait interval fuel i elapsed =
         PollResult.stillPolling (elapsed + fuel * interval)) ∧
    nanobananaWaitLoop allErrFetch 10 5 3 0 0 = PollResult.pollTimeout := by
  constructor
  · intro maxWait interval fuel i elapsed
    induction fuel generalizing i elapsed with
    | zero => simp [seedreamWaitLoop]
    | succ n ih =>
      calc seedreamWaitLoop allErrFetch maxWait interval (n + 1) i elapsed
          = seedreamWaitLoop allErrFetch maxWait interval n (i + 1)
              (elapsed + interval) := rfl
        _ = PollResult.stillPolling ((elapsed + interval) + n * interval) :=
              ih (i + 1) (elapsed + interval)
        _ = PollResult.stillPolling (elapsed + (n + 1) * interval) := by
              rw [Nat.succ_mul]; congr 1; ring
  · rfl

/-- A completed payload carrying none of the recognized URL shapes. -/
def noUrlPayload : Json := .obj [("status", .str "completed")]

/-- Counterexample to C5 as stated: for a completed payload matching no
URL shape, extraction yields nothing, yet the attempt is NOT failed as
`ResultShapeUnrecognized`: `generation_failed` is already `False` once
`wait_for_completion` returns (`src/bot/handlers.py` line 1241), so the
full cost is debited (line 1301) and the success-typed action row is
written (lines 1312-1326) BEFORE extraction; the no-URL branch then
crashes on the unassigned local `model_name` (line 1599), and the outer
except appends a second, error-typed, zero-credit row (lines 1632-1653)
while the user gets the generic processing-error message. -/
theorem c5_counterexample_no_shape_still_success :
    extractImageUrl noUrlPayload = none ∧
    (generationTerminal 50 1 "seedream" sampleGenSession
        (SubmitOutcome.ok sampleInitJson)
        (WaitOutcome.completed noUrlPayload) true).debits = [-50] ∧
    (generationTerminal 50 1 "seedream" sampleGenSession
        (SubmitOutcome.ok sampleInitJson)
        (WaitOutcome.completed noUrlPayload) true).actions =
      [⟨1, "api_request_seedream", 50⟩,
       ⟨1, "api_request_error_seedream", 0⟩] := by
  refine ⟨by decide, by decide, by decide⟩

/-- C5 (amended): extraction tries `images[0].url`,
`result.images[0].url`, `result.url`, `url` and `jobs[*].results[0].url`
in that priority (each probe also accepting `image_url`), and the quoted
jobs-shaped payload yields `"X"`; but a completed payload matching no
shape is NOT failed as `ResultShapeUnrecognized` — the cost has already
been debited and a success-typed action row written, after which the
handler crashes referencing the unassigned local `model_name`
(`src/bot/handlers.py` line 1599), the outer except appends a second,
error-typed, zero-credit row, the user receives a generic
processing-error message, and the session still returns to idle. -/
theorem c5_url_extraction_amended :
    extractImageUrl (.obj [("images", .arr [.obj [("url", .str "u1")]])]) = some "u1" ∧
    extractImageUrl (.obj [("result",
      .obj [("images", .arr [.obj [("url", .str "u2")]])])]) = some "u2" ∧
    extractImageUrl (.obj [("result", .obj [("url", .str "u3")])]) = some "u3" ∧
    extractImageUrl (.obj [("url", .str "u4")]) = some "u4" ∧
    extractImageUrl (.obj [("status", .str "completed"),
      ("jobs", .arr [.obj [("results", .arr [.obj [("url", .str "X")]])]])]) =
      some "X" ∧
    extractImageUrl (.obj [("jobs", .arr [.obj [("status", .str "completed")],
      .obj [("results", .arr [.obj [("url", .str "X2")]])]])]) = some "X2" ∧
    extractImageUrl noUrlPayload = none ∧
    (generationTerminal 50 1 "seedream" sampleGenSession
        (SubmitOutcome.ok sampleInitJson)
        (WaitOutcome.completed noUrlPayload) true).session.state = STATE_IDLE ∧
    (generationTerminal 50 1 "seedream" sampleGenSession
        (SubmitOutcome.ok sampleInitJson)
        (WaitOutcome.completed noUrlPayload) true).debits = [-(50 : ℚ)] ∧
    (generationTerminal 50 1 "seedream" sampleGenSession
        (SubmitOutcome.ok sampleInitJson)
        (WaitOutcome.completed noUrlPayload) true).actions =
      [⟨1, "api_request_seedream", 50⟩,
       ⟨1, "api_request_error_seedream", 0⟩] := by
  refine ⟨by decide, by decide, by decide, by decide, by decide, by decide,
    by decide, by decide, by decide, by decide⟩

/-- Concatenation of the buffered batches in the given order. -/
def flattenBatches : List (String × List String) → List String
  | [] => []
  | g :: rest => g.2 ++ flattenBatches rest

theorem collectGroups_eq (l : List (String × List String)) :
    ∀ acc, collectGroups acc l = acc ++ flattenBatches l := by
  induction l with
  | nil => intro acc; simp [collectGroups, flattenBatches]
  | cons g rest ih =>
    intro acc
    rw [collectGroups, ih, flattenBatches, List.append_assoc]

theorem insertByKey_length (g : String × List String)
    (l : List (String × List String)) :
    (insertByKey g l).length = l.length + 1 := by
  induction l with
  | nil => rfl
  | cons h t ih =>
    rw [insertByKey]
    split
    · simp
    · simp [ih]

theorem sortGroups_length (l : List (String × List String)) :
    (sortGroups l).length = l.length := by
  induction l with
  | nil => rfl
  | cons g t ih => rw [sortGroups, insertByKey_length, ih, List.length_cons]

/-- C6 (amended): the fresh-photo resolution is the previously
accumulated single images followed by the buffered batches flattened in
ASCENDING ORDER OF BATCH ID (`sorted(all_media_groups.keys())`,
`src/bot/handlers.py` lines 1056 and 1787) — not in first-seen order —
the images of each batch in arrival order; and in `handle_photos_ready_callback`
the buffer deletion sits inside the flattening loop (line 1060), so with
two or more buffered batches that handler raises `KeyError` instead of
resolving. -/
theorem c6_fresh_resolution_amended :
    (∀ (singles : List String) (groups : List (String × List String)),
       resolveAllUploadedList singles groups =
         singles ++ flattenBatches (sortGroups groups)) ∧
    (∀ (singles : List String) (groups : List (String × List String)),
       groups.length ≤ 1 →
       photosReadyResolve singles groups =
         Except.ok (singles ++ flattenBatches (sortGroups groups))) ∧
    (∀ (singles : List String) (groups : List (String × List String)),
       2 ≤ groups.length →
       photosReadyResolve singles groups = Except.error "KeyError") := by
  refine ⟨fun singles groups => ?_, fun singles groups h1 => ?_,
    fun singles groups h2 => ?_⟩
  · cases groups with
    | nil => simp [resolveAllUploadedList, sortGroups, flattenBatches]
    | cons g t => rw [resolveAllUploadedList, collectGroups_eq]
  · cases groups with
    | nil => simp [photosReadyResolve, sortGroups, flattenBatches]
    | cons g t =>
      cases t with
      | nil =>
        simp [photosReadyResolve, sortGroups, insertByKey, photosReadyLoop,
          flattenBatches]
      | cons g2 t2 => simp at h1
  · rcases groups with _ | ⟨g1, _ | ⟨g2, t⟩⟩
    · simp at h2
    · simp at h2
    · have hl : (sortGroups (g1 :: g2 :: t)).length = t.length + 2 := by
        rw [sortGroups_length]; simp
      rcases hsg : sortGroups (g1 :: g2 :: t) with _ | ⟨a, _ | ⟨b, rest⟩⟩
      · rw [hsg] at hl; simp at hl
      · rw [hsg] at hl; simp at hl
      · rw [photosReadyResolve, hsg]
        simp [photosReadyLoop]

/-- Witness for C6: one buffered batch resolves, two raise. -/
theorem c6_fresh_resolution_amended_witness :
    photosReadyResolve ["a.jpg"] [("7", ["x.jpg"])] =
      Except.ok (["a.jpg"] ++ flattenBatches (sortGroups [("7", ["x.jpg"])])) ∧
    photosReadyResolve ["a.jpg"] [("9", ["x.jpg"]), ("10", ["y.jpg"])] =
      Except.error "KeyError" :=
  ⟨c6_fresh_resolution_amended.2.1 ["a.jpg"] [("7", ["x.jpg"])] (by decide),
   c6_fresh_resolution_amended.2.2 ["a.jpg"]
     [("9", ["x.jpg"]), ("10", ["y.jpg"])] (by decide)⟩

/-- Counterexample to C6 as stated: with single image `a.jpg` and two
batches first seen as `"9"` then `"10"`, the code resolves
`[a, y, x]` (lexicographically `"10" < "9"`), while first-seen
flattening gives `[a, x, y]` — the orders differ. -/
theorem c6_counterexample_sorted_not_first_seen :
    resolveAllUploadedList ["a.jpg"] [("9", ["x.jpg"]), ("10", ["y.jpg"])] =
      ["a.jpg", "y.jpg", "x.jpg"] ∧
    specFreshResolution ["a.jpg"] [("9", ["x.jpg"]), ("10", ["y.jpg"])] =
      ["a.jpg", "x.jpg", "y.jpg"] ∧
    resolveAllUploadedList ["a.jpg"] [("9", ["x.jpg"]), ("10", ["y.jpg"])] ≠
      specFreshResolution ["a.jpg"] [("9", ["x.jpg"]), ("10", ["y.jpg"])] := by
  refine ⟨by decide, by decide, by decide⟩
